import Mathlib

/-
Verification of the favorites module of find-a-mentor-api.

The repository ships the controller test file (src/unnamed/part_000, a Jest
suite over FavoritesController.toggle and FavoritesController.list) together
with collaborator interfaces; the controller implementation itself is not in
the sources. The operations below are therefore modelled from the spec
(sections 4.1 to 4.3), and every modelled branch is kept consistent with the
behaviour pinned down by the test file.
-/

/-- Structural identifier: a rich id object compared by value. Mirrors
ObjectIdMock of the test file, which wraps a string. -/
structure ObjectId where
  current : String
  deriving DecidableEq, Repr

/-- ObjectIdMock.equals from the test file: structural comparison of the
wrapped value, never reference comparison. -/
def ObjectId.equals (a b : ObjectId) : Bool :=
  a.current == b.current

/-- Role enumeration of the user interface. -/
inductive Role where
  | MEMBER
  | MENTOR
  | ADMIN
  deriving DecidableEq, Repr

/-- User record: internal identifier and role set. -/
structure User where
  _id : ObjectId
  roles : List Role
  deriving DecidableEq, Repr

/-- A member reference inside a list: a reference to a user by identifier. -/
structure Member where
  _id : ObjectId
  deriving DecidableEq, Repr

/-- A stored favorites list entity: its id and its member collection. -/
structure FavList where
  _id : String
  mentors : List Member
  deriving DecidableEq, Repr

/-- Payload of a createList call, as asserted by the test file: name,
is-favorite flag, owner reference and initial member collection. -/
structure ListDto where
  name : String
  isFavorite : Bool
  user : Member
  mentors : List Member
  deriving DecidableEq, Repr

/-- The collaborators (user lookup and list persistence), modelled as an
environment of pure lookups. -/
structure Env where
  findByAuth0Id : String → Option User
  findById : String → Option User
  findFavoriteList : User → Option FavList

/-- Client-error classes of the module: BadRequestException (400-class) and
UnauthorizedException (401-class). -/
inductive HttpError where
  | badRequest
  | unauthorized
  deriving DecidableEq, Repr

/-- One mutating call to the list persistence collaborator. -/
inductive Mutation where
  | createList (dto : ListDto)
  | update (l : FavList)
  deriving DecidableEq, Repr

/-- Trace of list-persistence calls made by one invocation: the
findFavoriteList queries (by argument) and the mutating calls, in order. -/
structure Trace where
  favQueries : List User
  mutations : List Mutation
  deriving DecidableEq, Repr

/-- Response envelope of toggle. -/
structure ToggleResponse where
  success : Bool
  deriving DecidableEq, Repr

/-- Data payload of the list endpoint: either a full stored list entity, or
the synthetic empty shape holding just a mentors collection. -/
inductive ListData where
  | full (l : FavList)
  | synthetic (mentors : List Member)
  deriving DecidableEq, Repr

/-- Response envelope of list. -/
structure ListResponse where
  success : Bool
  data : ListData
  deriving DecidableEq, Repr

/-- Does this member reference match the given identifier, by structural
equality on the identifier value? -/
def memberMatches (mid : ObjectId) (m : Member) : Bool :=
  m._id.equals mid

/-- Is an entry matching this identifier present in the member collection? -/
def hasMember (ms : List Member) (mid : ObjectId) : Bool :=
  ms.any (memberMatches mid)

/-- Remove the first entry whose identifier matches (findIndex + splice). -/
def removeFirstMember (mid : ObjectId) : List Member → List Member
  | [] => []
  | m :: ms => if memberMatches mid m then ms else m :: removeFirstMember mid ms

/-- Number of entries matching the identifier. -/
def countMatches (mid : ObjectId) (ms : List Member) : Nat :=
  (ms.filter (memberMatches mid)).length

/-- Modelled from the spec: step 2 of the Favorites Toggler (section 4.2) —
scan the member collection for an entry whose identifier structurally equals
the mentor identifier; remove that entry when found, append a new member
reference when not. -/
def toggleMembership (ms : List Member) (mid : ObjectId) : List Member :=
  if hasMember ms mid then removeFirstMember mid ms else ms ++ [Member.mk mid]

/-- Modelled from the spec: FavoritesController.toggle, whose implementation
is not among the sources (only its test file is). Following sections 4.1 and
4.2: resolve the caller by external id (caller not found is treated as
unauthorized); resolve the target by internal id, else 400; the target must
hold the MENTOR role, else 400; the caller must structurally equal the target
or hold ADMIN, else 401; then fetch the mentor record in a second lookup,
find the favorite list of the target and either create a new list (named
Favorites, is-favorite, owned by the target, seeded with a reference built
from the identifier of the target — the quirk recorded in section 4.2) or
flip membership of the mentor identifier and persist by update. -/
def toggle (env : Env) (auth0Id userId mentorId : String) :
    Trace × Except HttpError ToggleResponse :=
  match env.findByAuth0Id auth0Id with
  | none => (⟨[], []⟩, .error .unauthorized)
  | some caller =>
    match env.findById userId with
    | none => (⟨[], []⟩, .error .badRequest)
    | some user =>
      if Role.MENTOR ∈ user.roles then
        if caller._id.equals user._id = true ∨ Role.ADMIN ∈ caller.roles then
          match env.findById mentorId with
          | none => (⟨[], []⟩, .error .badRequest)
          | some mentor =>
            match env.findFavoriteList user with
            | none =>
              (⟨[user], [Mutation.createList
                  ⟨"Favorites", true, ⟨user._id⟩, [⟨user._id⟩]⟩]⟩,
                .ok ⟨true⟩)
            | some favs =>
              (⟨[user], [Mutation.update
                  ⟨favs._id, toggleMembership favs.mentors mentor._id⟩]⟩,
                .ok ⟨true⟩)
        else (⟨[], []⟩, .error .unauthorized)
      else (⟨[], []⟩, .error .badRequest)

/-- Modelled from the spec: FavoritesController.list, whose implementation is
not among the sources (only its test file is). Following sections 4.1 and
4.3: resolve the caller by external id (caller not found is treated as
unauthorized); resolve the target by internal id, else 400; the caller must
structurally equal the target or hold ADMIN, else 401; then query the
favorite list of the target and return it unchanged, or the synthetic empty
shape when absent. No mutating persistence call is made. -/
def list (env : Env) (auth0Id userId : String) :
    Trace × Except HttpError ListResponse :=
  match env.findByAuth0Id auth0Id with
  | none => (⟨[], []⟩, .error .unauthorized)
  | some caller =>
    match env.findById userId with
    | none => (⟨[], []⟩, .error .badRequest)
    | some user =>
      if caller._id.equals user._id = true ∨ Role.ADMIN ∈ caller.roles then
        match env.findFavoriteList user with
        | some favs => (⟨[user], []⟩, .ok ⟨true, ListData.full favs⟩)
        | none => (⟨[user], []⟩, .ok ⟨true, ListData.synthetic []⟩)
      else (⟨[], []⟩, .error .unauthorized)

/-- Structural equality on identifiers coincides with equality of the
identifier values. -/
theorem ObjectId.equals_iff (a b : ObjectId) : a.equals b = true ↔ a = b := by
  cases a
  cases b
  simp [ObjectId.equals]

/-- Concrete environment of the remove scenario: caller auth0Id 1234 is an
admin member with id 1234; user 5678 is a mentor; list 12345 already holds
the member with id 5678. -/
def envRemove : Env where
  findByAuth0Id := fun a =>
    if a = "1234" then some ⟨⟨"1234"⟩, [Role.ADMIN, Role.MEMBER]⟩ else none
  findById := fun i =>
    if i = "5678" then some ⟨⟨"5678"⟩, [Role.MENTOR]⟩ else none
  findFavoriteList := fun u =>
    if u._id.current = "5678" then some ⟨"12345", [⟨⟨"5678"⟩⟩]⟩ else none

/-- Claim C3: in the concrete scenario where the admin caller 1234 toggles
mentor 5678 on the target 5678 whose favorite list 12345 already contains the
member with id 5678, the member is removed and update is called with an empty
mentors collection. -/
theorem toggle_remove_scenario :
    toggle envRemove "1234" "5678" "5678" =
      (⟨[⟨⟨"5678"⟩, [Role.MENTOR]⟩], [Mutation.update ⟨"12345", []⟩]⟩,
        .ok ⟨true⟩) := by
  rfl

/-- Claim C6: when the target user identifier does not resolve to an existing
user, both toggle and list reject with the 400-class BadRequest error
(assuming an authenticated caller, which both handlers resolve first). -/
theorem toggle_list_target_missing (env : Env) (a u m : String) (caller : User)
    (hc : env.findByAuth0Id a = some caller)
    (ht : env.findById u = none) :
    (toggle env a u m).2 = Except.error HttpError.badRequest ∧
    (list env a u).2 = Except.error HttpError.badRequest := by
  constructor
  · simp [toggle, hc, ht]
  · simp [list, hc, ht]

/-- Concrete environment for the target-missing witness. -/
def envMissingW : Env where
  findByAuth0Id := fun a =>
    if a = "ca" then some ⟨⟨"A"⟩, [Role.MEMBER]⟩ else none
  findById := fun _ => none
  findFavoriteList := fun _ => none

theorem toggle_list_target_missing_witness :
    (toggle envMissingW "ca" "B" "X").2 = Except.error HttpError.badRequest ∧
    (list envMissingW "ca" "B").2 = Except.error HttpError.badRequest :=
  toggle_list_target_missing envMissingW "ca" "B" "X" ⟨⟨"A"⟩, [Role.MEMBER]⟩ rfl rfl

/-- Claim C7: when the resolved target lacks the MENTOR role, toggle rejects
with the 400-class BadRequest error, for every caller (the conclusion does
not depend on the roles of the caller, so ADMIN callers included). -/
theorem toggle_nonmentor_rejected (env : Env) (a u m : String)
    (caller target : User)
    (hc : env.findByAuth0Id a = some caller)
    (ht : env.findById u = some target)
    (hnm : Role.MENTOR ∉ target.roles) :
    (toggle env a u m).2 = Except.error HttpError.badRequest := by
  simp [toggle, hc, ht, hnm]

/-- Concrete environment for the non-mentor witness: the caller is an ADMIN
and the rejection still happens. -/
def envNonMentorW : Env where
  findByAuth0Id := fun a =>
    if a = "ca" then some ⟨⟨"A"⟩, [Role.ADMIN]⟩ else none
  findById := fun i =>
    if i = "B" then some ⟨⟨"B"⟩, [Role.MEMBER]⟩ else none
  findFavoriteList := fun _ => none

theorem toggle_nonmentor_rejected_witness :
    (toggle envNonMentorW "ca" "B" "X").2 = Except.error HttpError.badRequest :=
  toggle_nonmentor_rejected envNonMentorW "ca" "B" "X"
    ⟨⟨"A"⟩, [Role.ADMIN]⟩ ⟨⟨"B"⟩, [Role.MEMBER]⟩ rfl rfl (by decide)

/-- Concrete environment refuting claim C1 as stated: caller A (MEMBER only)
and target B (MEMBER only, not a mentor) with different identifiers. -/
def envAuthCx : Env where
  findByAuth0Id := fun a =>
    if a = "ca" then some ⟨⟨"A"⟩, [Role.MEMBER]⟩ else none
  findById := fun i =>
    if i = "B" then some ⟨⟨"B"⟩, [Role.MEMBER]⟩ else none
  findFavoriteList := fun _ => none

/-- Claim C1, counterexample: for the pair caller A / target B with different
identifiers and no ADMIN role, toggle rejects with BadRequest (the target is
not a mentor, and that 400-class check precedes the ownership check), not
with the Unauthorized error the claim promises for every such pair. -/
theorem auth_unauthorized_counterexample :
    (toggle envAuthCx "ca" "B" "X").2 = Except.error HttpError.badRequest ∧
    (toggle envAuthCx "ca" "B" "X").2 ≠ Except.error HttpError.unauthorized := by
  constructor
  · rfl
  · intro h
    have h2 : Except.error (ε := HttpError) (α := ToggleResponse)
        HttpError.badRequest = Except.error HttpError.unauthorized := h
    simp at h2

/-- Claim C1, amended: assuming the caller and target both resolve and (for
toggle) the target holds the MENTOR role, each operation rejects with the
Unauthorized error exactly when the caller identifier does not structurally
equal the target identifier and the caller lacks the ADMIN role. -/
theorem auth_iff (env : Env) (a u m : String) (caller target : User)
    (hc : env.findByAuth0Id a = some caller)
    (ht : env.findById u = some target)
    (hmr : Role.MENTOR ∈ target.roles) :
    (((toggle env a u m).2 = Except.error HttpError.unauthorized) ↔
      ¬(caller._id.equals target._id = true ∨ Role.ADMIN ∈ caller.roles)) ∧
    (((list env a u).2 = Except.error HttpError.unauthorized) ↔
      ¬(caller._id.equals target._id = true ∨ Role.ADMIN ∈ caller.roles)) := by
  by_cases hauth : caller._id.equals target._id = true ∨ Role.ADMIN ∈ caller.roles
  · constructor
    · cases hm2 : env.findById m with
      | none => simp [toggle, hc, ht, hmr, hauth, hm2]
      | some mentor =>
        cases hfl : env.findFavoriteList target with
        | none => simp [toggle, hc, ht, hmr, hauth, hm2, hfl]
        | some L => simp [toggle, hc, ht, hmr, hauth, hm2, hfl]
    · cases hfl : env.findFavoriteList target with
      | none => simp [list, hc, ht, hauth, hfl]
      | some L => simp [list, hc, ht, hauth, hfl]
  · constructor
    · simp [toggle, hc, ht, hmr, hauth]
    · simp [list, hc, ht, hauth]

/-- Concrete environment for the amended-authorization witness. -/
def envAuthW : Env where
  findByAuth0Id := fun a =>
    if a = "ca" then some ⟨⟨"A"⟩, [Role.MEMBER]⟩ else none
  findById := fun i =>
    if i = "B" then some ⟨⟨"B"⟩, [Role.MENTOR]⟩ else none
  findFavoriteList := fun _ => none

theorem auth_iff_witness :
    (((toggle envAuthW "ca" "B" "X").2 = Except.error HttpError.unauthorized) ↔
      ¬((User.mk ⟨"A"⟩ [Role.MEMBER])._id.equals
          (User.mk ⟨"B"⟩ [Role.MENTOR])._id = true ∨
        Role.ADMIN ∈ (User.mk ⟨"A"⟩ [Role.MEMBER]).roles)) ∧
    (((list envAuthW "ca" "B").2 = Except.error HttpError.unauthorized) ↔
      ¬((User.mk ⟨"A"⟩ [Role.MEMBER])._id.equals
          (User.mk ⟨"B"⟩ [Role.MENTOR])._id = true ∨
        Role.ADMIN ∈ (User.mk ⟨"A"⟩ [Role.MEMBER]).roles)) :=
  auth_iff envAuthW "ca" "B" "X" (User.mk ⟨"A"⟩ [Role.MEMBER])
    (User.mk ⟨"B"⟩ [Role.MENTOR]) rfl rfl (by decide)

/-- Claim C2: for every existing favorites list, an authorized toggle scans
the member collection for an entry structurally matching the mentor
identifier, removes the found entry or appends a new reference, and persists
the mutated list through a single update call. -/
theorem toggle_scan_existing (env : Env) (a u m : String)
    (caller target mentor : User) (L : FavList)
    (hc : env.findByAuth0Id a = some caller)
    (ht : env.findById u = some target)
    (hmr : Role.MENTOR ∈ target.roles)
    (hauth : caller._id.equals target._id = true ∨ Role.ADMIN ∈ caller.roles)
    (hm2 : env.findById m = some mentor)
    (hL : env.findFavoriteList target = some L) :
    (toggle env a u m).2 = Except.ok ⟨true⟩ ∧
    (toggle env a u m).1.mutations =
      [Mutation.update ⟨L._id, toggleMembership L.mentors mentor._id⟩] ∧
    (hasMember L.mentors mentor._id = true →
      toggleMembership L.mentors mentor._id =
        removeFirstMember mentor._id L.mentors) ∧
    (hasMember L.mentors mentor._id = false →
      toggleMembership L.mentors mentor._id =
        L.mentors ++ [Member.mk mentor._id]) := by
  refine ⟨?_, ?_, ?_, ?_⟩
  · simp [toggle, hc, ht, hmr, hauth, hm2, hL]
  · simp [toggle, hc, ht, hmr, hauth, hm2, hL]
  · intro h
    simp [toggleMembership, h]
  · intro h
    simp [toggleMembership, h]

/-- Concrete environment for the scan witness: the list holds the mentor
already, so the toggle removes it. -/
def envScanW : Env where
  findByAuth0Id := fun a =>
    if a = "ca" then some ⟨⟨"B"⟩, [Role.MEMBER]⟩ else none
  findById := fun i =>
    if i = "B" then some ⟨⟨"B"⟩, [Role.MENTOR]⟩ else none
  findFavoriteList := fun u =>
    if u._id.current = "B" then some ⟨"L1", [⟨⟨"B"⟩⟩]⟩ else none

theorem toggle_scan_existing_witness :
    (toggle envScanW "ca" "B" "B").2 = Except.ok ⟨true⟩ ∧
    (toggle envScanW "ca" "B" "B").1.mutations =
      [Mutation.update ⟨(FavList.mk "L1" [⟨⟨"B"⟩⟩])._id,
        toggleMembership (FavList.mk "L1" [⟨⟨"B"⟩⟩]).mentors
          (User.mk ⟨"B"⟩ [Role.MENTOR])._id⟩] ∧
    (hasMember (FavList.mk "L1" [⟨⟨"B"⟩⟩]).mentors
        (User.mk ⟨"B"⟩ [Role.MENTOR])._id = true →
      toggleMembership (FavList.mk "L1" [⟨⟨"B"⟩⟩]).mentors
          (User.mk ⟨"B"⟩ [Role.MENTOR])._id =
        removeFirstMember (User.mk ⟨"B"⟩ [Role.MENTOR])._id
          (FavList.mk "L1" [⟨⟨"B"⟩⟩]).mentors) ∧
    (hasMember (FavList.mk "L1" [⟨⟨"B"⟩⟩]).mentors
        (User.mk ⟨"B"⟩ [Role.MENTOR])._id = false →
      toggleMembership (FavList.mk "L1" [⟨⟨"B"⟩⟩]).mentors
          (User.mk ⟨"B"⟩ [Role.MENTOR])._id =
        (FavList.mk "L1" [⟨⟨"B"⟩⟩]).mentors ++
          [Member.mk (User.mk ⟨"B"⟩ [Role.MENTOR])._id]) :=
  toggle_scan_existing envScanW "ca" "B" "B" (User.mk ⟨"B"⟩ [Role.MEMBER])
    (User.mk ⟨"B"⟩ [Role.MENTOR]) (User.mk ⟨"B"⟩ [Role.MENTOR])
    (FavList.mk "L1" [⟨⟨"B"⟩⟩]) rfl rfl (by decide) (by decide) rfl rfl

/-- Claim C4: when the target has no existing favorite list, an authorized
toggle issues exactly one createList call, with name Favorites, is-favorite
true, owner reference built from the target, and an initial member collection
holding the single reference built from the identifier of the target (not
from the identifier of the mentor), and returns success. -/
theorem toggle_creates_list (env : Env) (a u m : String)
    (caller target mentor : User)
    (hc : env.findByAuth0Id a = some caller)
    (ht : env.findById u = some target)
    (hmr : Role.MENTOR ∈ target.roles)
    (hauth : caller._id.equals target._id = true ∨ Role.ADMIN ∈ caller.roles)
    (hm2 : env.findById m = some mentor)
    (hnone : env.findFavoriteList target = none) :
    (toggle env a u m).2 = Except.ok ⟨true⟩ ∧
    (toggle env a u m).1.mutations =
      [Mutation.createList
        ⟨"Favorites", true, Member.mk target._id, [Member.mk target._id]⟩] := by
  constructor
  · simp [toggle, hc, ht, hmr, hauth, hm2, hnone]
  · simp [toggle, hc, ht, hmr, hauth, hm2, hnone]

/-- Concrete environment for the create witness: the mentor identifier 9999
differs from the target identifier 5678, and the created list is still seeded
with the reference to 5678. -/
def envCreateW : Env where
  findByAuth0Id := fun a =>
    if a = "ca" then some ⟨⟨"1234"⟩, [Role.ADMIN]⟩ else none
  findById := fun i =>
    if i = "5678" then some ⟨⟨"5678"⟩, [Role.MENTOR]⟩
    else if i = "9999" then some ⟨⟨"9999"⟩, [Role.MENTOR]⟩
    else none
  findFavoriteList := fun _ => none

theorem toggle_creates_list_witness :
    (toggle envCreateW "ca" "5678" "9999").2 = Except.ok ⟨true⟩ ∧
    (toggle envCreateW "ca" "5678" "9999").1.mutations =
      [Mutation.createList
        ⟨"Favorites", true, Member.mk (User.mk ⟨"5678"⟩ [Role.MENTOR])._id,
          [Member.mk (User.mk ⟨"5678"⟩ [Role.MENTOR])._id]⟩] :=
  toggle_creates_list envCreateW "ca" "5678" "9999"
    (User.mk ⟨"1234"⟩ [Role.ADMIN]) (User.mk ⟨"5678"⟩ [Role.MENTOR])
    (User.mk ⟨"9999"⟩ [Role.MENTOR]) rfl rfl (by decide) (by decide) rfl rfl

/-- Claim C5: an authorized list call returns the stored favorite list
unchanged when it exists, returns the synthetic empty shape when it does not,
and never rejects. -/
theorem list_reader (env : Env) (a u : String) (caller target : User)
    (hc : env.findByAuth0Id a = some caller)
    (ht : env.findById u = some target)
    (hauth : caller._id.equals target._id = true ∨ Role.ADMIN ∈ caller.roles) :
    (∀ L, env.findFavoriteList target = some L →
      (list env a u).2 = Except.ok ⟨true, ListData.full L⟩) ∧
    (env.findFavoriteList target = none →
      (list env a u).2 = Except.ok ⟨true, ListData.synthetic []⟩) ∧
    (∀ e, (list env a u).2 ≠ Except.error e) := by
  refine ⟨?_, ?_, ?_⟩
  · intro L hL
    simp [list, hc, ht, hauth, hL]
  · intro hL
    simp [list, hc, ht, hauth, hL]
  · intro e
    cases hfl : env.findFavoriteList target with
    | none => simp [list, hc, ht, hauth, hfl]
    | some L => simp [list, hc, ht, hauth, hfl]

/-- Concrete environment for the reader witness, following the spec scenario:
admin 9843 reads the list of user 123, which holds members 123 and 456. -/
def envReadW : Env where
  findByAuth0Id := fun a =>
    if a = "ca" then some ⟨⟨"9843"⟩, [Role.ADMIN]⟩ else none
  findById := fun i =>
    if i = "123" then some ⟨⟨"123"⟩, [Role.MEMBER]⟩ else none
  findFavoriteList := fun u =>
    if u._id.current = "123" then some ⟨"123", [⟨⟨"123"⟩⟩, ⟨⟨"456"⟩⟩]⟩ else none

theorem list_reader_witness :
    (∀ L, envReadW.findFavoriteList (User.mk ⟨"123"⟩ [Role.MEMBER]) = some L →
      (list envReadW "ca" "123").2 = Except.ok ⟨true, ListData.full L⟩) ∧
    (envReadW.findFavoriteList (User.mk ⟨"123"⟩ [Role.MEMBER]) = none →
      (list envReadW "ca" "123").2 = Except.ok ⟨true, ListData.synthetic []⟩) ∧
    (∀ e, (list envReadW "ca" "123").2 ≠ Except.error e) :=
  list_reader envReadW "ca" "123" (User.mk ⟨"9843"⟩ [Role.ADMIN])
    (User.mk ⟨"123"⟩ [Role.MEMBER]) rfl rfl (by decide)

/-- A member reference matches an identifier exactly when it is the reference
built from that identifier. -/
theorem memberMatches_iff (mid : ObjectId) (m : Member) :
    memberMatches mid m = true ↔ m = Member.mk mid := by
  cases m
  simp [memberMatches, ObjectId.equals_iff]

/-- Membership by structural scan coincides with list membership of the
reference built from the identifier. -/
theorem hasMember_iff (ms : List Member) (mid : ObjectId) :
    hasMember ms mid = true ↔ Member.mk mid ∈ ms := by
  simp [hasMember, List.any_eq_true, memberMatches_iff]

/-- Appending the fresh reference to a collection without a match and then
removing the first match recovers the original collection. -/
theorem removeFirst_append_self (ms : List Member) (mid : ObjectId)
    (h : hasMember ms mid = false) :
    removeFirstMember mid (ms ++ [Member.mk mid]) = ms := by
  induction ms with
  | nil => simp [removeFirstMember, memberMatches, ObjectId.equals]
  | cons x xs ih =>
    simp only [hasMember, List.any_cons, Bool.or_eq_false_iff] at h
    simp only [List.cons_append, removeFirstMember, h.1, Bool.false_eq_true,
      if_false, List.cons.injEq, true_and]
    exact ih h.2

/-- When no entry matches, the removal scan is the identity. -/
theorem removeFirst_of_not_member (ms : List Member) (mid : ObjectId)
    (h : hasMember ms mid = false) :
    removeFirstMember mid ms = ms := by
  induction ms with
  | nil => rfl
  | cons x xs ih =>
    simp only [hasMember, List.any_cons, Bool.or_eq_false_iff] at h
    simp only [removeFirstMember, h.1, Bool.false_eq_true, if_false,
      List.cons.injEq, true_and]
    exact ih h.2

/-- A collection with no matching entry has zero matches. -/
theorem countMatches_eq_zero (ms : List Member) (mid : ObjectId) :
    countMatches mid ms = 0 ↔ hasMember ms mid = false := by
  induction ms with
  | nil => simp [countMatches, hasMember]
  | cons x xs ih =>
    cases hx : memberMatches mid x with
    | true => simp [countMatches, hasMember, List.filter_cons, hx]
    | false =>
      simp only [countMatches, hasMember, List.filter_cons, hx,
        Bool.false_eq_true, if_false, List.any_cons, Bool.false_or] at ih ⊢
      exact ih

/-- Removing the first match from a collection with at most one match leaves
a collection with no match. -/
theorem removeFirst_no_match (ms : List Member) (mid : ObjectId)
    (hk : countMatches mid ms ≤ 1) (h : hasMember ms mid = true) :
    hasMember (removeFirstMember mid ms) mid = false := by
  induction ms with
  | nil => simp [hasMember] at h
  | cons x xs ih =>
    cases hx : memberMatches mid x with
    | true =>
      simp only [removeFirstMember, hx, if_true]
      simp only [countMatches, List.filter_cons, hx, if_true,
        List.length_cons] at hk
      have hz : countMatches mid xs = 0 := by
        unfold countMatches
        omega
      exact (countMatches_eq_zero xs mid).mp hz
    | false =>
      simp only [removeFirstMember, hx, Bool.false_eq_true, if_false]
      simp only [hasMember, List.any_cons, hx, Bool.false_or] at h ⊢
      simp only [countMatches, List.filter_cons, hx, Bool.false_eq_true,
        if_false] at hk
      exact ih hk h

/-- Removing the first match and appending the fresh reference preserves
membership of every identifier, whenever a match exists. -/
theorem removeFirst_append_mem (ms : List Member) (mid : ObjectId)
    (h : hasMember ms mid = true) (x : ObjectId) :
    hasMember (removeFirstMember mid ms ++ [Member.mk mid]) x =
      hasMember ms x := by
  induction ms with
  | nil => simp [hasMember] at h
  | cons m rest ih =>
    cases hm : memberMatches mid m with
    | true =>
      have hmeq : m = Member.mk mid := (memberMatches_iff mid m).mp hm
      subst hmeq
      simp [hasMember, removeFirstMember, hm, List.any_append, List.any_cons,
        Bool.or_comm]
    | false =>
      simp only [hasMember, List.any_cons, hm, Bool.false_or] at h
      simp only [removeFirstMember, hm, Bool.false_eq_true, if_false]
      simp only [hasMember, List.cons_append, List.any_cons]
      rw [show (removeFirstMember mid rest ++ [Member.mk mid]).any
            (memberMatches x) = hasMember
            (removeFirstMember mid rest ++ [Member.mk mid]) x from rfl,
        ih h]
      rfl

/-- Claim C8, counterexample: on the list state holding two entries with
identifier a, toggling identifier a twice does not return membership to its
original state — the identifier is a member before and not after. -/
theorem toggle_twice_counterexample :
    hasMember [Member.mk ⟨"a"⟩, Member.mk ⟨"a"⟩] ⟨"a"⟩ = true ∧
    toggleMembership
        (toggleMembership [Member.mk ⟨"a"⟩, Member.mk ⟨"a"⟩] ⟨"a"⟩) ⟨"a"⟩ = [] ∧
    hasMember (toggleMembership
        (toggleMembership [Member.mk ⟨"a"⟩, Member.mk ⟨"a"⟩] ⟨"a"⟩) ⟨"a"⟩)
      ⟨"a"⟩ = false := by
  refine ⟨rfl, rfl, rfl⟩

/-- Claim C8, amended: on every list state holding at most one entry matching
the mentor identifier, toggling that identifier twice in sequence (the second
toggle reading the outcome of the first) returns the membership of every
identifier to its original state. -/
theorem toggle_twice_membership (ms : List Member) (mid : ObjectId)
    (hk : countMatches mid ms ≤ 1) (x : ObjectId) :
    hasMember (toggleMembership (toggleMembership ms mid) mid) x =
      hasMember ms x := by
  cases h0 : hasMember ms mid with
  | false =>
    have h1 : hasMember (ms ++ [Member.mk mid]) mid = true := by
      simp [hasMember, List.any_append, memberMatches, ObjectId.equals]
    simp only [toggleMembership, h0, Bool.false_eq_true, if_false, h1, if_true]
    rw [removeFirst_append_self ms mid h0]
  | true =>
    have h2 := removeFirst_no_match ms mid hk h0
    simp only [toggleMembership, h0, if_true, h2, Bool.false_eq_true, if_false]
    exact removeFirst_append_mem ms mid h0 x

theorem toggle_twice_membership_witness :
    hasMember (toggleMembership
        (toggleMembership [Member.mk ⟨"a"⟩, Member.mk ⟨"b"⟩] ⟨"b"⟩) ⟨"b"⟩)
      ⟨"a"⟩ = hasMember [Member.mk ⟨"a"⟩, Member.mk ⟨"b"⟩] ⟨"a"⟩ :=
  toggle_twice_membership [Member.mk ⟨"a"⟩, Member.mk ⟨"b"⟩] ⟨"b"⟩
    (by decide) ⟨"a"⟩

/-- Claim C9: every successful toggle makes exactly one mutating persistence
call — a single createList when the target has no favorite list, or a single
update of the found list (carrying its id) when it has one, never both and
never a mutation of any other list. -/
theorem toggle_single_mutation (env : Env) (a u m : String)
    (r : ToggleResponse) (h : (toggle env a u m).2 = Except.ok r) :
    ∃ target, env.findById u = some target ∧
      ((env.findFavoriteList target = none ∧
        ∃ dto, (toggle env a u m).1.mutations = [Mutation.createList dto]) ∨
       (∃ L, env.findFavoriteList target = some L ∧
        ∃ ms, (toggle env a u m).1.mutations =
          [Mutation.update ⟨L._id, ms⟩])) := by
  cases hca : env.findByAuth0Id a with
  | none => simp [toggle, hca] at h
  | some caller =>
    cases ht : env.findById u with
    | none => simp [toggle, hca, ht] at h
    | some target =>
      by_cases hmr : Role.MENTOR ∈ target.roles
      · by_cases hauth :
          caller._id.equals target._id = true ∨ Role.ADMIN ∈ caller.roles
        · cases hm2 : env.findById m with
          | none => simp [toggle, hca, ht, hmr, hauth, hm2] at h
          | some mentor =>
            cases hfl : env.findFavoriteList target with
            | none =>
              refine ⟨target, rfl, Or.inl ⟨hfl,
                ⟨"Favorites", true, Member.mk target._id,
                  [Member.mk target._id]⟩, ?_⟩⟩
              simp [toggle, hca, ht, hmr, hauth, hm2, hfl]
            | some L =>
              refine ⟨target, rfl, Or.inr ⟨L, hfl,
                toggleMembership L.mentors mentor._id, ?_⟩⟩
              simp [toggle, hca, ht, hmr, hauth, hm2, hfl]
        · simp [toggle, hca, ht, hmr, hauth] at h
      · simp [toggle, hca, ht, hmr] at h

/-- Concrete environment for the single-mutation witness: the member toggles
her own list, which exists, so exactly one update is issued. -/
def envOkW : Env where
  findByAuth0Id := fun a =>
    if a = "ca" then some ⟨⟨"B"⟩, [Role.MEMBER]⟩ else none
  findById := fun i =>
    if i = "B" then some ⟨⟨"B"⟩, [Role.MENTOR]⟩ else none
  findFavoriteList := fun u =>
    if u._id.current = "B" then some ⟨"L1", []⟩ else none

theorem toggle_single_mutation_witness :
    ∃ target, envOkW.findById "B" = some target ∧
      ((envOkW.findFavoriteList target = none ∧
        ∃ dto, (toggle envOkW "ca" "B" "B").1.mutations =
          [Mutation.createList dto]) ∨
       (∃ L, envOkW.findFavoriteList target = some L ∧
        ∃ ms, (toggle envOkW "ca" "B" "B").1.mutations =
          [Mutation.update ⟨L._id, ms⟩])) :=
  toggle_single_mutation envOkW "ca" "B" "B" ⟨true⟩ rfl

/-- Claim C10: list never mutates persistent state — for every environment
and every arguments, successful or rejected, the invocation issues no
createList or update call, and performs at most one findFavoriteList query,
that query being made with the resolved target user record. -/
theorem list_no_mutation (env : Env) (a u : String) :
    (list env a u).1.mutations = [] ∧
    (list env a u).1.favQueries.length ≤ 1 ∧
    ((list env a u).1.favQueries = [] ∨
      ∃ target, env.findById u = some target ∧
        (list env a u).1.favQueries = [target]) := by
  cases hca : env.findByAuth0Id a with
  | none => simp [list, hca]
  | some caller =>
    cases ht : env.findById u with
    | none => simp [list, hca, ht]
    | some target =>
      by_cases hauth :
        caller._id.equals target._id = true ∨ Role.ADMIN ∈ caller.roles
      · cases hfl : env.findFavoriteList target with
        | none =>
          refine ⟨?_, ?_, Or.inr ⟨target, rfl, ?_⟩⟩ <;>
            simp [list, hca, ht, hauth, hfl]
        | some L =>
          refine ⟨?_, ?_, Or.inr ⟨target, rfl, ?_⟩⟩ <;>
            simp [list, hca, ht, hauth, hfl]
      · simp [list, hca, ht, hauth]
